import Mathlib

/-! A verification development for the `kaim-week-3` insurance-EDA repository.
The scripts are shallowly embedded: a pandas DataFrame is modeled columnwise,
a cell being a string, a rational number, a boolean, or null (pandas `NaN`);
each column carries a pandas dtype tag together with its list of cells.
Floating-point values are modeled by rationals; the statistic/p-value
computations delegated to scipy are passed in as explicit function arguments,
exactly as the scripts treat them as black boxes. -/

/-- A single cell of a pandas DataFrame.  `null` stands for `NaN`/missing. -/
inductive Cell where
  | str (s : String)
  | num (q : ℚ)
  | bool (b : Bool)
  | null
  deriving DecidableEq

/-- The pandas dtypes relevant to these scripts. -/
inductive Dtype where
  | object | float64 | int64 | bool | datetime
  deriving DecidableEq

/-- A DataFrame column: its dtype and its cells (top to bottom). -/
structure Column where
  dtype : Dtype
  cells : List Cell
  deriving DecidableEq

/-- A DataFrame, as an association list of named columns (first match wins,
as pandas column labels are unique). -/
abbrev DataFrame := List (String × Column)

/-- Column lookup, `df[name]`; `none` models a missing column. -/
def getCol (df : DataFrame) (name : String) : Option Column :=
  (df.find? (fun p => p.1 == name)).map Prod.snd

/-- The check `name in df.columns`. -/
def hasCol (df : DataFrame) (name : String) : Bool :=
  (getCol df name).isSome

/-- Cells of a named column, `[]` when the column is absent. -/
def colCells (df : DataFrame) (name : String) : List Cell :=
  ((getCol df name).map Column.cells).getD []

/-- Python's notion of whitespace for `str.strip()`. -/
def isPySpace (c : Char) : Bool :=
  c == ' ' || c == '\t' || c == '\n' || c == '\r' || c == '\x0b' || c == '\x0c'

/-- `str.strip()` on the character list of a string. -/
def trimChars (cs : List Char) : List Char :=
  ((cs.dropWhile isPySpace).reverse.dropWhile isPySpace).reverse

/-- Python's `str.strip()`. -/
def pyStrip (s : String) : String := String.mk (trimChars s.data)

/-- Python's `str.lower()` (the data is ASCII). -/
def pyLower (s : String) : String := String.mk (s.data.map Char.toLower)

/-- Numeric value of a digit character. -/
def digitVal (c : Char) : ℕ := c.toNat - 48

/-- Value of a digit string read in base 10. -/
def digitsVal (cs : List Char) : ℕ := cs.foldl (fun a c => a * 10 + digitVal c) 0

/-- Parse an unsigned decimal literal (`"12"`, `"3.5"`, `".5"`, `"5."`),
the grammar Python's `float()` accepts on the data these scripts see.
Exponent and `inf` forms are not modeled; `"nan"` is rejected here, which
coincides with `pd.to_numeric` turning it into `NaN`. -/
def parseUnsigned (cs : List Char) : Option ℚ :=
  let ip := cs.takeWhile (fun c => c != '.')
  let rest := cs.drop ip.length
  match rest with
  | [] =>
      if ip.isEmpty || !ip.all Char.isDigit then none
      else some ((digitsVal ip : ℚ))
  | _ :: fp =>
      if (ip.isEmpty && fp.isEmpty) || !ip.all Char.isDigit || !fp.all Char.isDigit then
        none
      else
        some ((digitsVal ip : ℚ) + (digitsVal fp : ℚ) / (10 : ℚ) ^ fp.length)

/-- Parse a signed decimal string, whitespace-tolerant, as `float()` is. -/
def parseRat (s : String) : Option ℚ :=
  match trimChars s.data with
  | '-' :: rest => (parseUnsigned rest).map (fun q => -q)
  | '+' :: rest => parseUnsigned rest
  | l => parseUnsigned l

/-- Fractional decimal digits of `r / d` by long division, up to `fuel` digits
(Python prints at most 17 significant digits). -/
def fracDigitsAux : ℕ → ℕ → ℕ → List Char
  | 0, _, _ => []
  | _, 0, _ => []
  | fuel + 1, r, d =>
      let r10 := r * 10
      Char.ofNat (48 + r10 / d) :: fracDigitsAux fuel (r10 % d) d

/-- Python's `str()` of a float, e.g. `str(5.0) = "5.0"`, `str(2.5) = "2.5"`.
Only its shape (a sign, digits and a dot — hence never `"yes"`/`"no"`)
matters downstream. -/
def numRepr (q : ℚ) : String :=
  let sign := if q < 0 then "-" else ""
  let aq : ℚ := if q < 0 then -q else q
  let ip : ℕ := aq.num.toNat / aq.den
  let fd := fracDigitsAux 17 (aq - (ip : ℚ)).num.toNat aq.den
  sign ++ toString ip ++ "." ++ (if fd.isEmpty then "0" else String.mk fd)

/-- Python's `str()` of a cell, as `Series.astype(str)` applies it elementwise:
a float `NaN` prints as `"nan"`, booleans as `"True"`/`"False"`. -/
def pyStrCell : Cell → String
  | .str s => s
  | .num q => numRepr q
  | .bool b => if b then "True" else "False"
  | .null => "nan"

/-- Python's `str.capitalize()`: first character upper-cased, rest lower-cased. -/
def pyCapitalize (s : String) : String :=
  match s.data with
  | [] => ""
  | c :: cs => String.mk (c.toUpper :: cs.map Char.toLower)

/-- One cell of `pd.to_numeric(col, errors="coerce")`: numbers pass through,
booleans coerce to 0/1, non-parsable strings and `NaN` become `NaN`. -/
def toNumericCell : Cell → Cell
  | .num q => .num q
  | .bool b => .num (if b then 1 else 0)
  | .null => .null
  | .str s => match parseRat s with | some q => .num q | none => .null

/-- One cell of `col.astype(str).str.strip().str.lower().map({"yes": True,
"no": False})` (lines 86-87 of `load_and_clean_data.py`).  Written per cell
kind: for a string the trimmed lower-cased text is compared to `"yes"`/`"no"`;
`str()` of a float is digits with a dot, of a boolean is `"true"`/`"false"`
after lowering, and of `NaN` is `"nan"` — none equals `"yes"` or `"no"`, so
`Series.map` sends every non-string cell to `NaN`. -/
def yesNoMapCell : Cell → Cell
  | .str s =>
      if pyLower (pyStrip s) = "yes" then .bool true
      else if pyLower (pyStrip s) = "no" then .bool false
      else .null
  | .num _ => .null
  | .bool _ => .null
  | .null => .null

/-- The dtype pandas infers for the result of the yes/no `Series.map`: a
nonempty pure `True`/`False` result is `bool`; everything else is `object`.
The map's dict values are booleans, and pandas' NA-promotion rule casts a
boolean result with `NaN`s to `object` (it is `float64` only for integer
sources), so even an all-`NaN` result is an object column of `NaN` — which
the later formatting pass will stringify. -/
def inferMapDtype (cells : List Cell) : Dtype :=
  if !cells.isEmpty &&
      cells.all (fun c => match c with | .bool _ => true | _ => false) then
    .bool
  else .object

/-- One cell of the object-column formatting pass
`col.astype(str).str.strip()` followed by `.str.capitalize()`
(lines 90-93 of `load_and_clean_data.py`). -/
def formatCell (c : Cell) : Cell :=
  .str (pyCapitalize (pyStrip (pyStrCell c)))

/-- `pd.to_numeric(col, errors="coerce")` on a column.  The result dtype is
collapsed to `float64` (pandas may keep `int64` when no `NaN` appears; the
downstream dtype tests treat `float64` and `int64` identically). -/
def toNumericCol (col : Column) : Column :=
  ⟨.float64, col.cells.map toNumericCell⟩

/-- `pd.to_datetime(col, errors="coerce")`.  The parsed values are kept
abstract: every later step of `clean_data` gates on the dtype, and the
`datetime` dtype is excluded from both the object-formatting pass and the
mode/median fill, so the cell contents of a datetime column are never
inspected again. -/
def toDatetimeCol (col : Column) : Column :=
  ⟨.datetime, col.cells⟩

/-- `col.astype(str)` (the `PostalCode` conversion): every cell becomes its
Python string form; the dtype becomes `object`. -/
def astypeStrCol (col : Column) : Column :=
  ⟨.object, col.cells.map (fun c => Cell.str (pyStrCell c))⟩

/-- The yes/no boolean conversion of one column, dtype re-inferred by pandas. -/
def yesNoCol (col : Column) : Column :=
  let cs := col.cells.map yesNoMapCell
  ⟨inferMapDtype cs, cs⟩

/-- The object-column formatting pass applied to one column. -/
def formatCol (col : Column) : Column :=
  ⟨.object, col.cells.map formatCell⟩

/-- Numeric values of a column's cells, `NaN` skipped — how pandas reductions
such as `median`/`quantile` read a numeric column. -/
def numsOf (cells : List Cell) : List ℚ :=
  cells.filterMap (fun c => match c with | .num q => some q | _ => none)

/-- `Series.median()`: the middle of the sorted non-null values, the mean of
the two middles for an even count, `NaN` (here `none`) when no value exists. -/
def medianQ (l : List ℚ) : Option ℚ :=
  let s := List.insertionSort (· ≤ ·) l
  if s.isEmpty then none
  else if s.length % 2 = 1 then some (s.getD (s.length / 2) 0)
  else some ((s.getD (s.length / 2 - 1) 0 + s.getD (s.length / 2) 0) / 2)

/-- `Series.mode()[0]` of an object column: the most frequent non-null value,
ties resolved toward the smaller value (pandas returns the sorted modes; the
columns reaching this call hold only strings, compared lexicographically).
`none` when no non-null value exists, where pandas would raise `KeyError`. -/
def modeCell (cells : List Cell) : Option Cell :=
  let nn := cells.filter (fun c => !(c == Cell.null))
  nn.foldl
    (fun acc c =>
      match acc with
      | none => some c
      | some b =>
          if nn.count c > nn.count b then some c
          else if nn.count c == nn.count b &&
              (match c, b with | .str s, .str t => decide (s < t) | _, _ => false) then
            some c
          else some b)
    none

/-- The mode value used to fill an object column; the `""` default is dead
code inside `clean_data` (the formatting pass leaves object columns without
nulls, so the fill below never consults it on a null cell). -/
def fillValueObject (cells : List Cell) : Cell :=
  (modeCell cells).getD (Cell.str "")

/-- The median `fillna` on a numeric column: when at least one value exists
each null becomes the median, and an all-null column is unchanged
(`fillna(NaN)` is a no-op). -/
def fillNumericCol (d : Dtype) (cs : List Cell) : Column :=
  match medianQ (numsOf cs) with
  | some m => ⟨d, cs.map (fun c => if c = Cell.null then Cell.num m else c)⟩
  | none => ⟨d, cs⟩

/-- The missing-value fill of `clean_data` (lines 95-102): object columns are
`fillna`-ed with their mode, `float64`/`int64` columns with their median,
every other dtype is left alone. -/
def fillCol : Column → Column
  | ⟨.object, cs⟩ =>
      ⟨.object, cs.map (fun c => if c = Cell.null then fillValueObject cs else c)⟩
  | ⟨.float64, cs⟩ => fillNumericCol .float64 cs
  | ⟨.int64, cs⟩ => fillNumericCol .int64 cs
  | ⟨.bool, cs⟩ => ⟨.bool, cs⟩
  | ⟨.datetime, cs⟩ => ⟨.datetime, cs⟩

/-- The two columns coerced with `downcast="integer"` (line 74). -/
def integerColumns : List String := ["Cylinders", "NumberOfDoors"]

/-- The yes/no boolean-like columns of `clean_data` (lines 82-85); note that
`CapitalOutstanding` appears here although line 61 just coerced it to
numeric. -/
def booleanColumns : List String :=
  ["AlarmImmobiliser", "TrackingDevice", "CapitalOutstanding", "NewVehicle",
   "WrittenOff", "Rebuilt", "Converted", "CrossBorder"]

/-- Line 61: `CapitalOutstanding` is coerced to numeric. -/
def capGate (name : String) (col : Column) : Column :=
  if name = "CapitalOutstanding" then toNumericCol col else col

/-- Line 64: `TransactionMonth` is parsed to datetime (the
`parse_vehicle_intro_date` helper on lines 67-71 is defined but never called,
so `VehicleIntroDate` is left untouched). -/
def dateGate (name : String) (col : Column) : Column :=
  if name = "TransactionMonth" then toDatetimeCol col else col

/-- Lines 74-76: the integer-like columns are coerced to numeric. -/
def intGate (name : String) (col : Column) : Column :=
  if name ∈ integerColumns then toNumericCol col else col

/-- Line 79: `PostalCode` is cast to string. -/
def postalGate (name : String) (col : Column) : Column :=
  if name = "PostalCode" then astypeStrCol col else col

/-- Lines 86-87: the configured yes/no columns are mapped to booleans. -/
def boolGate (name : String) (col : Column) : Column :=
  if name ∈ booleanColumns then yesNoCol col else col

/-- Lines 89-93: object-dtype columns (and only those) are stripped and
capitalized.  The source iterates over a snapshot of `dtypes`, but no step of
the loop body changes a dtype (strings map to strings), so the per-column
gate is exact. -/
def formatGate (col : Column) : Column :=
  if col.dtype = Dtype.object then formatCol col else col

/-- `DataCleaner.clean_data` restricted to one named column.  Every step of
`clean_data` is columnwise (each fill uses only the column's own mode or
median), so the whole method is the per-column composition of its steps, in
source order.  A column name absent from the frame is simply not transformed
(pandas would raise `KeyError` on the missing hard-coded labels; the claims
are about frames carrying the schema). -/
def preGate (name : String) (col : Column) : Column :=
  boolGate name (postalGate name (intGate name (dateGate name (capGate name col))))

def cleanColumn (name : String) (col : Column) : Column :=
  fillCol (formatGate (preGate name col))

/-- `DataCleaner.clean_data` on a whole frame. -/
def cleanData (df : DataFrame) : DataFrame :=
  df.map (fun p => (p.1, cleanColumn p.1 p.2))

/-- `DataCleaner.assess_data_quality`: columns that are entirely null
(including zero-row columns, as `Series.isnull().all()` is vacuously true)
are dropped. -/
def assessDataQuality (df : DataFrame) : DataFrame :=
  df.filter (fun p => !(p.2.cells.all (fun c => c == Cell.null)))

/-- A filesystem of parsed tabular files, keyed by path. -/
abbrev FS := List (String × DataFrame)

/-- Read a file, `none` when the path is missing (`FileNotFoundError`). -/
def fsLookup (fs : FS) (path : String) : Option DataFrame :=
  (fs.find? (fun p => p.1 == path)).map Prod.snd

/-- Write (or overwrite) a file. -/
def fsWrite (fs : FS) (path : String) (df : DataFrame) : FS :=
  (path, df) :: fs.filter (fun p => !(p.1 == path))

/-- `DataConverter.load_data`: a missing input file is caught, a message is
printed, and `None` is returned. -/
def converterLoadData (fs : FS) (inputFile : String) : Option DataFrame :=
  fsLookup fs inputFile

/-- `DataConverter.convert_and_save`: writes the CSV only when the loaded
data is not `None`. -/
def converterConvertAndSave (fs : FS) (outputFile : String) :
    Option DataFrame → FS
  | some df => fsWrite fs outputFile df
  | none => fs

/-- `DataConverter.process`: load, then convert-and-save. -/
def converterProcess (fs : FS) (inputFile outputFile : String) : FS :=
  converterConvertAndSave fs outputFile (converterLoadData fs inputFile)

/-- `DataCleaner.process`: `load_data` leaves `self.data = None` when the
input file is missing, and `assess_data_quality`, `clean_data` and
`save_cleaned_data` each test `self.data is not None` before acting, so
nothing is written in that case. -/
def cleanerProcess (fs : FS) (inputFile outputFile : String) : FS :=
  match fsLookup fs inputFile with
  | none => fs
  | some df => fsWrite fs outputFile (cleanData (assessDataQuality df))

/-- Linear-interpolation quantile, the default of `Series.quantile(p)` (and
`np.percentile`): with `s` the sorted non-null values and `h = (n-1)*p`, the
result is `s[⌊h⌋] + (h - ⌊h⌋) * (s[⌊h⌋+1] - s[⌊h⌋])`; `NaN` (here `none`)
on an empty series. -/
def quantileQ (l : List ℚ) (p : ℚ) : Option ℚ :=
  let s := List.insertionSort (· ≤ ·) l
  if s.isEmpty then none
  else
    let h : ℚ := ((s.length : ℚ) - 1) * p
    let i : ℕ := h.num.toNat / h.den
    let lo := s.getD i 0
    let hi := s.getD (i + 1) lo
    some (lo + (h - (i : ℚ)) * (hi - lo))

/-- The per-column statistics printed by `OutlierDetector.detect_outliers`
(lines 56-70 of `outlier_detection_box_plots.py`). -/
structure OutlierReport where
  q1 : ℚ
  q3 : ℚ
  iqr : ℚ
  lowerBound : ℚ
  upperBound : ℚ
  outlierCount : ℕ
  deriving DecidableEq

/-- The row filter `(data[col] < lower_bound) | (data[col] > upper_bound)`:
comparisons against `NaN` (and non-numeric cells) are `False` in pandas. -/
def isOutlierCell (c : Cell) (lb ub : ℚ) : Bool :=
  match c with
  | .num q => decide (q < lb) || decide (q > ub)
  | _ => false

/-- The rows counted as outliers for one column. -/
def outlierRows (cells : List Cell) (lb ub : ℚ) : List Cell :=
  cells.filter (fun c => isOutlierCell c lb ub)

/-- `detect_outliers` on one column: `Q1`/`Q3` quantiles, the Tukey fences
at `1.5 * IQR`, and the outlier count; `none` when the column has no numeric
value (all the printed statistics would be `NaN` and the count `0`). -/
def detectOutliersCol (cells : List Cell) : Option OutlierReport :=
  match quantileQ (numsOf cells) (1 / 4), quantileQ (numsOf cells) (3 / 4) with
  | some q1, some q3 =>
      let iqr := q3 - q1
      let lb := q1 - 3 / 2 * iqr
      let ub := q3 + 3 / 2 * iqr
      some ⟨q1, q3, iqr, lb, ub, (outlierRows cells lb ub).length⟩
  | _, _ => none

/-- `OutlierDetector.detect_outliers`: the report for every `float64`/`int64`
column (`select_dtypes(include=["float64", "int64"])`). -/
def detectOutliers (df : DataFrame) : List (String × Option OutlierReport) :=
  (df.filter (fun p => p.2.dtype == Dtype.float64 || p.2.dtype == Dtype.int64)).map
    (fun p => (p.1, detectOutliersCol p.2.cells))

/-- A statistical-test result as the report strings render it: the statistic,
the p-value, and whether the conclusion line declares the null hypothesis
rejected. -/
structure TestReport where
  statistic : ℚ
  pValue : ℚ
  rejectNull : Bool
  deriving DecidableEq

/-- Distinct values of a list in order of first appearance
(`Series.unique()`). -/
def uniqueCells (l : List Cell) : List Cell :=
  l.foldl (fun acc c => if c ∈ acc then acc else acc ++ [c]) []

/-- The rows of `valCol` whose `keyCol` cell equals `v`
(`data[data[keyCol] == v][valCol]`).  A `NaN` key cell never matches — in
pandas `NaN == x` is `False` for every `x`, including `NaN` itself — so a
null `v` selects nothing. -/
def selectWhere (df : DataFrame) (keyCol : String) (v : Cell) (valCol : String) :
    List Cell :=
  ((colCells df keyCol).zip (colCells df valCol)).filterMap
    (fun p => if p.1 = v ∧ p.1 ≠ Cell.null then some p.2 else none)

/-- Like `selectWhere` followed by `.dropna()`, keeping the numeric values. -/
def selectNumsWhere (df : DataFrame) (keyCol : String) (v : Cell) (valCol : String) :
    List ℚ :=
  ((colCells df keyCol).zip (colCells df valCol)).filterMap
    (fun p =>
      if p.1 = v then
        match p.2 with | .num q => some q | _ => none
      else none)

/-- `ABHypothesisTesting.test_risk_differences_between_genders` (lines
92-108): guard on the required columns (printing and returning when one is
missing, modeled as `none`); split `TotalPremium` by `Gender ==
"Male"`/`"Female"` with `dropna()`; call `scipy.stats.ttest_ind(...,
equal_var=False)` — passed in as `tt`; and build the report whose conclusion
line rejects the null hypothesis exactly when `p_value < 0.05`. -/
def testRiskDifferencesBetweenGenders
    (tt : List ℚ → List ℚ → ℚ × ℚ) (df : DataFrame) : Option TestReport :=
  if hasCol df "Gender" && hasCol df "TotalPremium" && hasCol df "TotalClaims" then
    let maleRisk := selectNumsWhere df "Gender" (Cell.str "Male") "TotalPremium"
    let femaleRisk := selectNumsWhere df "Gender" (Cell.str "Female") "TotalPremium"
    let r := tt maleRisk femaleRisk
    some ⟨r.1, r.2, decide (r.2 < 1 / 20)⟩
  else none

/-- `ABHypothesisTesting.test_risk_differences_across_provinces` (lines
37-53): guard on the required columns; group `TotalPremium` by each distinct
`Province` value (`unique()` keeps `NaN` and appearance order, and the groups
are taken without `dropna`, so they are passed as raw cells); run
`scipy.stats.f_oneway` — the `anova` argument; threshold at 0.05. -/
def testRiskDifferencesAcrossProvinces
    (anova : List (List Cell) → ℚ × ℚ) (df : DataFrame) : Option TestReport :=
  if hasCol df "Province" && hasCol df "TotalPremium" && hasCol df "TotalClaims" then
    let groups := (uniqueCells (colCells df "Province")).map
      (fun v => selectWhere df "Province" v "TotalPremium")
    let r := anova groups
    some ⟨r.1, r.2, decide (r.2 < 1 / 20)⟩
  else none

/-- `HypothesisTesting.perform_anova` (lines 38-52): run `f_oneway` on the
groups and declare the null hypothesis rejected exactly when the p-value is
below 0.05. -/
def performAnova
    (anova : List (List Cell) → ℚ × ℚ) (groups : List (List Cell)) : TestReport :=
  let r := anova groups
  ⟨r.1, r.2, decide (r.2 < 1 / 20)⟩

/-- `HypothesisTesting.perform_ttest` (lines 54-69), same 0.05 threshold. -/
def performTTestHT
    (tt : List Cell → List Cell → ℚ × ℚ) (g1 g2 : List Cell) : TestReport :=
  let r := tt g1 g2
  ⟨r.1, r.2, decide (r.2 < 1 / 20)⟩

/-- The columns `perform_hypothesis_testing` requires (line 76). -/
def requiredColumnsHT : List String :=
  ["Province", "PostalCode", "Gender", "Risk", "ProfitMargin"]

/-- Cell at row `i` of a named column (`null` out of range or missing). -/
def cellAt (df : DataFrame) (name : String) (i : ℕ) : Cell :=
  (colCells df name).getD i Cell.null

/-- Number of rows of a frame (columns are equal length in a DataFrame). -/
def nRows (df : DataFrame) : ℕ :=
  ((df.head?).map (fun p => p.2.cells.length)).getD 0

/-- `df.dropna(subset=...)`: keep the rows whose cells are non-null in every
subset column. -/
def dropnaSubset (df : DataFrame) (subset : List String) : DataFrame :=
  let keep := (List.range (nRows df)).filter
    (fun i => subset.all (fun n => !(cellAt df n i == Cell.null)))
  df.map (fun p => (p.1, ⟨p.2.dtype, keep.map (fun i => p.2.cells.getD i Cell.null)⟩))

/-- `[group[valCol] for _, group in df.groupby(keyCol)]`.  Group order is
irrelevant to the claims (pandas sorts the keys; appearance order is used
here), and the callers group after `dropna`, so no `NaN` keys arise. -/
def groupBy (df : DataFrame) (keyCol valCol : String) : List (List Cell) :=
  (uniqueCells (colCells df keyCol)).map (fun v => selectWhere df keyCol v valCol)

/-- `HypothesisTesting.perform_hypothesis_testing` (lines 71-98): if any
required column is absent a `ValueError` is raised (modeled as
`Except.error`); otherwise rows with nulls in the required columns are
dropped and the four grouped tests run through `perform_anova` /
`perform_ttest`. -/
def performHypothesisTesting
    (anova : List (List Cell) → ℚ × ℚ) (tt : List Cell → List Cell → ℚ × ℚ)
    (df : DataFrame) : Except String (List TestReport) :=
  if requiredColumnsHT.all (fun c => hasCol df c) then
    let d := dropnaSubset df requiredColumnsHT
    let r1 := performAnova anova (groupBy d "Province" "Risk")
    let r2 := performAnova anova (groupBy d "PostalCode" "Risk")
    let r3 := performAnova anova (groupBy d "PostalCode" "ProfitMargin")
    let femaleRisk := selectWhere d "Gender" (Cell.str "Female") "Risk"
    let maleRisk := selectWhere d "Gender" (Cell.str "Male") "Risk"
    let r4 := performTTestHT tt femaleRisk maleRisk
    .ok [r1, r2, r3, r4]
  else
    .error ("The dataset must include the following columns: " ++
      "Province, PostalCode, Gender, Risk, ProfitMargin")

/-- `pd.api.types.is_numeric_dtype`: true for `float64`, `int64` and `bool`,
false for `object` and `datetime64`. -/
def isNumericDtype : Dtype → Bool
  | .float64 | .int64 | .bool => true
  | .object | .datetime => false

/-- Which statistical test a dispatch site picks. -/
inductive TestKind where
  | tTest | chiSquared
  deriving DecidableEq

/-- `StatisticalTesting.conduct_statistical_tests` (lines 77-108): raise
`ValueError` when the feature or KPI column is missing; segment the control
and test groups; then dispatch on `is_numeric_dtype` of the KPI column — a
Welch t-test for numeric KPIs, a chi-squared test on a contingency table
otherwise.  The result records the two group sizes and the dispatched test
(the statistic itself is delegated to scipy by the source). -/
def conductStatisticalTests (df : DataFrame) (featureColumn kpiColumn : String)
    (controlValue testValue : Cell) : Except String (ℕ × ℕ × TestKind) :=
  match getCol df featureColumn, getCol df kpiColumn with
  | some fc, some kc =>
      let groupA := (fc.cells.filter (fun c => c == controlValue)).length
      let groupB := (fc.cells.filter (fun c => c == testValue)).length
      let kind := if isNumericDtype kc.dtype then TestKind.tTest else TestKind.chiSquared
      .ok (groupA, groupB, kind)
  | _, _ =>
      .error ("Feature column '" ++ featureColumn ++ "' or KPI column '" ++
        kpiColumn ++ "' not found in the dataset.")

/-- The per-column dispatch of `AnalyzeAndReport.analyze_statistical_outcomes`
(lines 32-55): a missing column is noted in the report and skipped
(`continue`), a numeric column gets the t-test, any other a chi-squared
test. -/
def analyzeColumnDispatch (df : DataFrame) (col : String) : Option TestKind :=
  match getCol df col with
  | none => none
  | some c => some (if isNumericDtype c.dtype then TestKind.tTest else TestKind.chiSquared)

/-- A small raw frame carrying every column `clean_data` references by name,
plus the columns the testing scripts use. -/
def exRawDf : DataFrame :=
  [("CapitalOutstanding", ⟨.object, [.str "1000", .str "2000"]⟩),
   ("TransactionMonth", ⟨.object, [.str "2015-03-01", .str "2015-04-01"]⟩),
   ("Cylinders", ⟨.float64, [.num 4, .num 6]⟩),
   ("NumberOfDoors", ⟨.float64, [.num 4, .null]⟩),
   ("PostalCode", ⟨.float64, [.num 1234, .num 2000]⟩),
   ("AlarmImmobiliser", ⟨.object, [.str "Yes", .str "Maybe"]⟩),
   ("TrackingDevice", ⟨.object, [.str "Yes", .str "No"]⟩),
   ("NewVehicle", ⟨.object, [.str "Yes", .str "No"]⟩),
   ("WrittenOff", ⟨.object, [.str "No", .str "No"]⟩),
   ("Rebuilt", ⟨.object, [.str "No", .str "No"]⟩),
   ("Converted", ⟨.object, [.str "No", .str "No"]⟩),
   ("CrossBorder", ⟨.object, [.str "No", .str "No"]⟩),
   ("Gender", ⟨.object, [.str "Male", .str "Female"]⟩),
   ("TotalPremium", ⟨.float64, [.num 100, .num 200]⟩),
   ("TotalClaims", ⟨.float64, [.num 10, .num 20]⟩)]

/-- A frame with a generic numeric column, matching the spec's fill example. -/
def exNumDf : DataFrame :=
  [("SumInsured", ⟨.float64, [.num 1, .num 2, .null, .num 4]⟩)]

/-- A frame missing the `Risk`/`ProfitMargin` columns required by
`perform_hypothesis_testing`. -/
def exDfNoRisk : DataFrame :=
  [("Province", ⟨.object, [.str "Gauteng"]⟩),
   ("PostalCode", ⟨.object, [.str "1234"]⟩),
   ("Gender", ⟨.object, [.str "Male"]⟩),
   ("TotalPremium", ⟨.float64, [.num 1]⟩),
   ("TotalClaims", ⟨.float64, [.num 2]⟩)]

/-- A concrete stand-in for `scipy.stats.ttest_ind` on numeric groups. -/
def exTT : List ℚ → List ℚ → ℚ × ℚ := fun _ _ => (3, 1 / 100)

/-- A concrete stand-in for `scipy.stats.f_oneway`. -/
def exAnova : List (List Cell) → ℚ × ℚ := fun _ => (1, 1 / 10)

/-- A concrete stand-in for `ttest_ind` taken on raw cells. -/
def exTTCells : List Cell → List Cell → ℚ × ℚ := fun _ _ => (2, 1 / 2)

/-- All column names `clean_data` singles out by name; every other column is
only formatted (if `object`) and filled. -/
def specialColumns : List String :=
  ["CapitalOutstanding", "TransactionMonth", "Cylinders", "NumberOfDoors",
   "PostalCode"] ++ booleanColumns

lemma yesNoMapCell_cases (c : Cell) :
    yesNoMapCell c = Cell.bool true ∨ yesNoMapCell c = Cell.bool false ∨
      yesNoMapCell c = Cell.null := by
  cases c with
  | str s =>
      by_cases h1 : pyLower (pyStrip s) = "yes"
      · exact Or.inl (by simp [yesNoMapCell, h1])
      · by_cases h2 : pyLower (pyStrip s) = "no"
        · exact Or.inr (Or.inl (by simp [yesNoMapCell, h1, h2]))
        · exact Or.inr (Or.inr (by simp [yesNoMapCell, h1, h2]))
  | num q => exact Or.inr (Or.inr rfl)
  | bool b => exact Or.inr (Or.inr rfl)
  | null => exact Or.inr (Or.inr rfl)

lemma toNumericCell_not_str (c : Cell) :
    toNumericCell c = Cell.null ∨ ∃ q, toNumericCell c = Cell.num q := by
  cases c with
  | str s =>
      cases h : parseRat s with
      | none => exact Or.inl (by simp [toNumericCell, h])
      | some q => exact Or.inr ⟨q, by simp [toNumericCell, h]⟩
  | num q => exact Or.inr ⟨q, rfl⟩
  | bool b => exact Or.inr ⟨if b then 1 else 0, rfl⟩
  | null => exact Or.inl rfl

lemma yesNoMapCell_of_not_str (c : Cell) (h : ∀ s, c ≠ Cell.str s) :
    yesNoMapCell c = Cell.null := by
  cases c with
  | str s => exact absurd rfl (h s)
  | num q => rfl
  | bool b => rfl
  | null => rfl

lemma numsOf_eq_nil {l : List Cell} (h : ∀ c ∈ l, ∀ q, c ≠ Cell.num q) :
    numsOf l = [] := by
  refine List.filterMap_eq_nil_iff.mpr (fun c hc => ?_)
  cases c with
  | num q => exact absurd rfl (h _ hc q)
  | str s => rfl
  | bool b => rfl
  | null => rfl

lemma map_fill_of_no_null {v : Cell} {l : List Cell}
    (h : ∀ c ∈ l, c ≠ Cell.null) :
    l.map (fun c => if c = Cell.null then v else c) = l := by
  induction l with
  | nil => rfl
  | cons a t ih =>
      have ha : a ≠ Cell.null := h a (List.mem_cons_self a t)
      simp only [List.map_cons, if_neg ha]
      rw [ih (fun c hc => h c (List.mem_cons_of_mem a hc))]

lemma getCol_cleanData (df : DataFrame) (name : String) :
    getCol (cleanData df) name = (getCol df name).map (cleanColumn name) := by
  induction df with
  | nil => rfl
  | cons p t ih =>
      by_cases hp : p.1 = name
      · subst hp
        simp [cleanData, getCol]
      · have hb : (p.1 == name) = false := beq_eq_false_iff_ne.mpr hp
        simp only [cleanData, List.map_cons, getCol] at *
        rw [List.find?_cons_of_neg _ (by simp [hb]),
          List.find?_cons_of_neg _ (by simp [hb])]
        exact ih

lemma formatGate_object {col : Column} (h : col.dtype = Dtype.object) :
    formatGate col = formatCol col := by
  simp [formatGate, h]

lemma formatGate_not_object {col : Column} (h : col.dtype ≠ Dtype.object) :
    formatGate col = col := by
  simp [formatGate, h]

lemma fillNumericCol_of_no_num {cs : List Cell} (d : Dtype)
    (h : numsOf cs = []) : fillNumericCol d cs = ⟨d, cs⟩ := by
  unfold fillNumericCol
  split
  · rename_i m hm
    rw [h] at hm
    exact absurd hm (by simp [medianQ])
  · rfl

lemma fillCol_object_of_no_null {cs : List Cell}
    (h : ∀ c ∈ cs, c ≠ Cell.null) :
    fillCol ⟨Dtype.object, cs⟩ = ⟨Dtype.object, cs⟩ := by
  show (⟨Dtype.object, cs.map (fun c => if c = Cell.null then fillValueObject cs else c)⟩ : Column) = _
  rw [map_fill_of_no_null h]

lemma formatCell_ok (c : Cell)
    (h : c = Cell.bool true ∨ c = Cell.bool false ∨ c = Cell.null) :
    formatCell c = Cell.str "True" ∨ formatCell c = Cell.str "False" ∨
      formatCell c = Cell.str "Nan" := by
  rcases h with rfl | rfl | rfl
  · exact Or.inl (by with_unfolding_all rfl)
  · exact Or.inr (Or.inl (by with_unfolding_all rfl))
  · exact Or.inr (Or.inr (by with_unfolding_all rfl))

lemma yesNoCol_eq (col : Column) :
    yesNoCol col = ⟨inferMapDtype (col.cells.map yesNoMapCell), col.cells.map yesNoMapCell⟩ :=
  rfl

/-- Whatever dtype pandas infers for the mapped yes/no column, every cell of
the rest of the pipeline (formatting and fill) is a boolean, a null, or one
of the three strings the formatting pass can produce from those. -/
lemma boolTail_mem (col : Column) :
    ∀ c ∈ (fillCol (formatGate (yesNoCol col))).cells,
      c = Cell.bool true ∨ c = Cell.bool false ∨ c = Cell.null ∨
      c = Cell.str "True" ∨ c = Cell.str "False" ∨ c = Cell.str "Nan" := by
  intro c hc
  have hm : ∀ x ∈ col.cells.map yesNoMapCell,
      x = Cell.bool true ∨ x = Cell.bool false ∨ x = Cell.null := by
    intro x hx
    obtain ⟨a, -, rfl⟩ := List.mem_map.mp hx
    exact yesNoMapCell_cases a
  have hnum : numsOf (col.cells.map yesNoMapCell) = [] := by
    apply numsOf_eq_nil
    intro x hx q hq
    rcases hm x hx with rfl | rfl | rfl <;> exact Cell.noConfusion hq
  rw [yesNoCol_eq] at hc
  cases hd : inferMapDtype (col.cells.map yesNoMapCell) with
  | object =>
      rw [hd, formatGate_object rfl] at hc
      have hstr : ∀ x ∈ (formatCol ⟨Dtype.object, col.cells.map yesNoMapCell⟩).cells,
          x = Cell.str "True" ∨ x = Cell.str "False" ∨ x = Cell.str "Nan" := by
        intro x hx
        obtain ⟨a, ha, rfl⟩ := List.mem_map.mp hx
        exact formatCell_ok a (hm a ha)
      rw [show formatCol ⟨Dtype.object, col.cells.map yesNoMapCell⟩ =
          ⟨Dtype.object, (col.cells.map yesNoMapCell).map formatCell⟩ from rfl,
        fillCol_object_of_no_null (by
          intro x hx he
          rcases hstr x hx with h1 | h1 | h1 <;> simp [he] at h1)] at hc
      rcases hstr c hc with h1 | h1 | h1
      · exact Or.inr (Or.inr (Or.inr (Or.inl h1)))
      · exact Or.inr (Or.inr (Or.inr (Or.inr (Or.inl h1))))
      · exact Or.inr (Or.inr (Or.inr (Or.inr (Or.inr h1))))
  | float64 =>
      rw [hd, formatGate_not_object (by simp)] at hc
      rw [show fillCol ⟨Dtype.float64, col.cells.map yesNoMapCell⟩ =
          fillNumericCol Dtype.float64 (col.cells.map yesNoMapCell) from rfl,
        fillNumericCol_of_no_num _ hnum] at hc
      rcases hm c hc with h1 | h1 | h1
      · exact Or.inl h1
      · exact Or.inr (Or.inl h1)
      · exact Or.inr (Or.inr (Or.inl h1))
  | int64 =>
      rw [hd, formatGate_not_object (by simp)] at hc
      rw [show fillCol ⟨Dtype.int64, col.cells.map yesNoMapCell⟩ =
          fillNumericCol Dtype.int64 (col.cells.map yesNoMapCell) from rfl,
        fillNumericCol_of_no_num _ hnum] at hc
      rcases hm c hc with h1 | h1 | h1
      · exact Or.inl h1
      · exact Or.inr (Or.inl h1)
      · exact Or.inr (Or.inr (Or.inl h1))
  | bool =>
      rw [hd, formatGate_not_object (by simp)] at hc
      rcases hm c hc with h1 | h1 | h1
      · exact Or.inl h1
      · exact Or.inr (Or.inl h1)
      · exact Or.inr (Or.inr (Or.inl h1))
  | datetime =>
      rw [hd, formatGate_not_object (by simp)] at hc
      rcases hm c hc with h1 | h1 | h1
      · exact Or.inl h1
      · exact Or.inr (Or.inl h1)
      · exact Or.inr (Or.inr (Or.inl h1))

/-- For every configured yes/no column the earlier steps reduce to the
`CapitalOutstanding` numeric coercion (or nothing), so `clean_data` acts on
it as numeric-coercion (where applicable), yes/no map, formatting gate and
fill, in source order. -/
lemma cleanColumn_of_boolean (name : String) (h : name ∈ booleanColumns)
    (col : Column) :
    cleanColumn name col = fillCol (formatGate (yesNoCol (capGate name col))) := by
  fin_cases h <;> rfl

/-- A column not singled out by name is only formatted (when `object`) and
filled. -/
lemma cleanColumn_of_generic (name : String) (h : name ∉ specialColumns)
    (col : Column) :
    cleanColumn name col = fillCol (formatGate col) := by
  have h1 : ¬(name = "CapitalOutstanding") := fun e => h (by rw [e]; decide)
  have h2 : ¬(name = "TransactionMonth") := fun e => h (by rw [e]; decide)
  have h3 : ¬(name ∈ integerColumns) := by
    intro m
    have hsub : ∀ x ∈ integerColumns, x ∈ specialColumns := by decide
    exact h (hsub name m)
  have h4 : ¬(name = "PostalCode") := fun e => h (by rw [e]; decide)
  have h5 : ¬(name ∈ booleanColumns) := by
    intro m
    have hsub : ∀ x ∈ booleanColumns, x ∈ specialColumns := by decide
    exact h (hsub name m)
  simp [cleanColumn, preGate, capGate, dateGate, intGate, postalGate, boolGate,
    h1, h2, h3, h4, h5]

/-- When the yes/no map sends every cell of a column to null (as it does on
any column without string cells), the rest of the pipeline turns the column
into the literal string `"Nan"` everywhere: the all-`NaN` map result is an
object column, so the formatting pass stringifies each `NaN`, after which
the mode fill has no null left to change. -/
lemma boolTail_all_nan (col : Column)
    (h : ∀ x ∈ col.cells, yesNoMapCell x = Cell.null) :
    ∀ c ∈ (fillCol (formatGate (yesNoCol col))).cells, c = Cell.str "Nan" := by
  intro c hc
  have hall : ∀ x ∈ col.cells.map yesNoMapCell, x = Cell.null := by
    intro x hx
    obtain ⟨a, ha, rfl⟩ := List.mem_map.mp hx
    exact h a ha
  have hd : inferMapDtype (col.cells.map yesNoMapCell) = Dtype.object := by
    cases hcs : col.cells.map yesNoMapCell with
    | nil => rfl
    | cons x xs =>
        have hx : x = Cell.null := hall x (by rw [hcs]; exact List.mem_cons_self x xs)
        rw [hx]
        rfl
  rw [yesNoCol_eq, hd, formatGate_object rfl] at hc
  have hfmt : ∀ x ∈ (col.cells.map yesNoMapCell).map formatCell,
      x = Cell.str "Nan" := by
    intro x hx
    obtain ⟨a, ha, rfl⟩ := List.mem_map.mp hx
    rw [hall a ha]
    with_unfolding_all rfl
  rw [show formatCol ⟨Dtype.object, col.cells.map yesNoMapCell⟩ =
        ⟨Dtype.object, (col.cells.map yesNoMapCell).map formatCell⟩ from rfl,
    fillCol_object_of_no_null (fun x hx he => by
      rw [hfmt x hx] at he
      exact Cell.noConfusion he)] at hc
  exact hfmt c hc

lemma map_eq_self_of {f : Cell → Cell} {l : List Cell}
    (h : ∀ x ∈ l, f x = x) : l.map f = l := by
  induction l with
  | nil => rfl
  | cons a t ih =>
      rw [List.map_cons, h a (List.mem_cons_self a t),
        ih (fun x hx => h x (List.mem_cons_of_mem a hx))]

lemma fillNumericCol_of_no_null {cs : List Cell} (d : Dtype)
    (h : ∀ c ∈ cs, c ≠ Cell.null) : fillNumericCol d cs = ⟨d, cs⟩ := by
  unfold fillNumericCol
  split
  · rw [map_fill_of_no_null h]
  · rfl

lemma fillCol_dtype (col : Column) : (fillCol col).dtype = col.dtype := by
  obtain ⟨d, cs⟩ := col
  cases d
  case object => rfl
  case float64 =>
      show (fillNumericCol Dtype.float64 cs).dtype = _
      unfold fillNumericCol
      split <;> rfl
  case int64 =>
      show (fillNumericCol Dtype.int64 cs).dtype = _
      unfold fillNumericCol
      split <;> rfl
  case bool => rfl
  case datetime => rfl

/-- Once the formatting pass has run, an object column holds only strings,
and the subsequent mode fill cannot change it. -/
lemma cleanTail_object_str (c5 : Column)
    (hd : (fillCol (formatGate c5)).dtype = Dtype.object) :
    ∀ c ∈ (fillCol (formatGate c5)).cells, ∃ s, c = Cell.str s := by
  by_cases ho : c5.dtype = Dtype.object
  · rw [formatGate_object ho]
    intro c hc
    have hcells : (fillCol (formatCol c5)).cells =
        (c5.cells.map formatCell).map
          (fun c => if c = Cell.null then fillValueObject (c5.cells.map formatCell) else c) :=
      rfl
    rw [hcells] at hc
    obtain ⟨a, ha, rfl⟩ := List.mem_map.mp hc
    obtain ⟨a0, -, rfl⟩ := List.mem_map.mp ha
    refine ⟨pyCapitalize (pyStrip (pyStrCell a0)), ?_⟩
    rw [if_neg (by exact fun he => Cell.noConfusion he)]
    rfl
  · rw [formatGate_not_object ho] at hd ⊢
    rw [fillCol_dtype] at hd
    exact absurd hd ho

/-- Claim C1, as stated, is false: `clean_data` maps a yes/no column to
booleans, but when the result mixes booleans and `NaN` its dtype is `object`,
so the subsequent formatting pass stringifies it.  At `exRawDf` the
`AlarmImmobiliser` column (values `"Yes"`, `"Maybe"`) ends as the strings
`"True"` and `"Nan"`, which are neither `True`, `False`, nor null. -/
theorem c1_counterexample :
    getCol (cleanData exRawDf) "AlarmImmobiliser" =
      some ⟨Dtype.object, [Cell.str "True", Cell.str "Nan"]⟩ ∧
    ¬∀ c ∈ [Cell.str "True", Cell.str "Nan"],
        c = Cell.bool true ∨ c = Cell.bool false ∨ c = Cell.null := by
  exact ⟨by with_unfolding_all rfl, by decide⟩

/-- Claim C1 (amended): after `DataCleaner.clean_data`, every configured
yes/no boolean-like column contains only the values `True`, `False`, null,
or their string forms `"True"`, `"False"`, `"Nan"` produced by the
object-formatting pass; the original yes/no string never survives. -/
theorem c1_boolean_columns_after_clean (df : DataFrame) (name : String)
    (h : name ∈ booleanColumns) (col : Column)
    (hcol : getCol (cleanData df) name = some col) :
    ∀ c ∈ col.cells,
      c = Cell.bool true ∨ c = Cell.bool false ∨ c = Cell.null ∨
      c = Cell.str "True" ∨ c = Cell.str "False" ∨ c = Cell.str "Nan" := by
  rw [getCol_cleanData] at hcol
  cases hg : getCol df name with
  | none => rw [hg] at hcol; exact absurd hcol (by simp)
  | some col0 =>
      rw [hg] at hcol
      simp only [Option.map_some', Option.some.injEq] at hcol
      rw [← hcol, cleanColumn_of_boolean name h]
      exact boolTail_mem (capGate name col0)

/-- Witness for C1's amended theorem at the concrete frame `exRawDf`, read
off at the two cells of the cleaned `AlarmImmobiliser` column. -/
theorem c1_boolean_columns_after_clean_witness :
    (Cell.str "True" = Cell.bool true ∨ Cell.str "True" = Cell.bool false ∨
      Cell.str "True" = Cell.null ∨ Cell.str "True" = Cell.str "True" ∨
      Cell.str "True" = Cell.str "False" ∨ Cell.str "True" = Cell.str "Nan") ∧
    (Cell.str "Nan" = Cell.bool true ∨ Cell.str "Nan" = Cell.bool false ∨
      Cell.str "Nan" = Cell.null ∨ Cell.str "Nan" = Cell.str "True" ∨
      Cell.str "Nan" = Cell.str "False" ∨ Cell.str "Nan" = Cell.str "Nan") :=
  ⟨c1_boolean_columns_after_clean exRawDf "AlarmImmobiliser" (by decide)
      ⟨Dtype.object, [Cell.str "True", Cell.str "Nan"]⟩ (by with_unfolding_all rfl)
      (Cell.str "True") (by decide),
   c1_boolean_columns_after_clean exRawDf "AlarmImmobiliser" (by decide)
      ⟨Dtype.object, [Cell.str "True", Cell.str "Nan"]⟩ (by with_unfolding_all rfl)
      (Cell.str "Nan") (by decide)⟩

/-- Claim C9: within one `clean_data` run, `CapitalOutstanding` is first
coerced to numeric and then passed through the case-insensitive yes/no
lookup, in that order; consequently the lookup maps every value to `NaN`,
and the formatting pass (the all-`NaN` object result of the map) leaves
every cleaned value as the literal string `"Nan"`. -/
theorem c9_capital_outstanding_order (df : DataFrame) (col : Column)
    (h : getCol df "CapitalOutstanding" = some col) :
    getCol (cleanData df) "CapitalOutstanding" =
      some (fillCol (formatGate (yesNoCol (toNumericCol col)))) ∧
    ∀ c ∈ (fillCol (formatGate (yesNoCol (toNumericCol col)))).cells,
      c = Cell.str "Nan" := by
  constructor
  · rw [getCol_cleanData, h]
    simp only [Option.map_some', Option.some.injEq]
    rw [cleanColumn_of_boolean _ (by decide)]
    rfl
  · apply boolTail_all_nan
    intro x hx
    obtain ⟨a, -, rfl⟩ := List.mem_map.mp hx
    rcases toNumericCell_not_str a with h1 | ⟨q, h1⟩ <;> rw [h1] <;> rfl

/-- Witness for C9 at `exRawDf`. -/
theorem c9_capital_outstanding_order_witness :
    getCol (cleanData exRawDf) "CapitalOutstanding" =
      some ⟨Dtype.object, [Cell.str "Nan", Cell.str "Nan"]⟩ := by
  have h := c9_capital_outstanding_order exRawDf
    ⟨Dtype.object, [Cell.str "1000", Cell.str "2000"]⟩ (by with_unfolding_all rfl)
  rw [h.1]
  with_unfolding_all rfl

/-- Claim C10 (implicit): the formatting pass turns a missing value into the
literal string `"Nan"`; the mode fill never changes a text column whose cells
are all strings; and after `clean_data` every object-dtype column contains
only strings — in particular no nulls. -/
theorem c10_object_columns_no_null :
    formatCell Cell.null = Cell.str "Nan" ∧
    (∀ col : Column, col.dtype = Dtype.object →
      (∀ c ∈ col.cells, ∃ s, c = Cell.str s) → fillCol col = col) ∧
    (∀ (df : DataFrame) (name : String) (col : Column),
      getCol (cleanData df) name = some col → col.dtype = Dtype.object →
      ∀ c ∈ col.cells, ∃ s, c = Cell.str s) := by
  refine ⟨by with_unfolding_all rfl, ?_, ?_⟩
  · intro col hd hs
    obtain ⟨d, cs⟩ := col
    cases hd
    exact fillCol_object_of_no_null (fun c hc he => by
      obtain ⟨s, rfl⟩ := hs c hc
      exact Cell.noConfusion he)
  · intro df name col hcol hd c hc
    rw [getCol_cleanData] at hcol
    cases hg : getCol df name with
    | none => rw [hg] at hcol; exact absurd hcol (by simp)
    | some col0 =>
        rw [hg] at hcol
        simp only [Option.map_some', Option.some.injEq] at hcol
        subst hcol
        exact cleanTail_object_str (preGate name col0) hd c hc

/-- Witness for C10: the cleaned `Gender` column of `exRawDf` is an object
column of strings, and the mode fill leaves it untouched. -/
theorem c10_object_columns_no_null_witness :
    getCol (cleanData exRawDf) "Gender" =
      some ⟨Dtype.object, [Cell.str "Male", Cell.str "Female"]⟩ ∧
    fillCol ⟨Dtype.object, [Cell.str "Male", Cell.str "Female"]⟩ =
      ⟨Dtype.object, [Cell.str "Male", Cell.str "Female"]⟩ := by
  constructor
  · with_unfolding_all rfl
  · refine c10_object_columns_no_null.2.1
      ⟨Dtype.object, [Cell.str "Male", Cell.str "Female"]⟩ rfl ?_
    intro c hc
    rcases List.mem_cons.mp hc with rfl | hc'
    · exact ⟨"Male", rfl⟩
    · rcases List.mem_cons.mp hc' with rfl | hc''
      · exact ⟨"Female", rfl⟩
      · exact absurd hc'' (List.not_mem_nil c)

/-- Claim C2, as stated, is false: `clean_data` is not idempotent.  Cleaning
`exRawDf` turns `TrackingDevice` (`"Yes"`/`"No"`) into the booleans
`True`/`False`, but a second run pushes those booleans through the yes/no
lookup again (`str(True).lower() = "true"` is neither `"yes"` nor `"no"`),
and the formatting pass then stringifies the all-`NaN` object result,
leaving the column as the literal strings `"Nan"`. -/
theorem c2_counterexample :
    getCol (cleanData exRawDf) "TrackingDevice" =
      some ⟨Dtype.bool, [Cell.bool true, Cell.bool false]⟩ ∧
    getCol (cleanData (cleanData exRawDf)) "TrackingDevice" =
      some ⟨Dtype.object, [Cell.str "Nan", Cell.str "Nan"]⟩ ∧
    cleanData (cleanData exRawDf) ≠ cleanData exRawDf := by
  refine ⟨by with_unfolding_all rfl, by with_unfolding_all rfl, ?_⟩
  with_unfolding_all decide

/-- Claim C2 (amended): re-running `clean_data` leaves canonical text columns
(trimmed, capitalized strings) and canonical numeric columns (no nulls)
unchanged — formatting and the mode/median fill are no-ops there — but it is
not idempotent on the configured boolean columns: a column of booleans is
mapped entirely to `NaN` by the second run's yes/no lookup, and the
formatting pass turns every one of those into the literal string `"Nan"`. -/
theorem c2_clean_idempotence_scope :
    (∀ (name : String) (col : Column), name ∉ specialColumns →
      col.dtype = Dtype.object →
      (∀ c ∈ col.cells, ∃ s, c = Cell.str s ∧ pyStrip s = s ∧ pyCapitalize s = s) →
      cleanColumn name col = col) ∧
    (∀ (name : String) (col : Column), name ∉ specialColumns →
      col.dtype = Dtype.float64 →
      (∀ c ∈ col.cells, ∃ q, c = Cell.num q) →
      cleanColumn name col = col) ∧
    (∀ (name : String) (col : Column), name ∈ booleanColumns →
      (∀ c ∈ col.cells, ∃ b, c = Cell.bool b) →
      ∀ c ∈ (cleanColumn name col).cells, c = Cell.str "Nan") := by
  refine ⟨?_, ?_, ?_⟩
  · intro name col hname hd hcanon
    rw [cleanColumn_of_generic name hname]
    obtain ⟨d, cs⟩ := col
    cases hd
    rw [formatGate_object rfl]
    have hfmt : formatCol ⟨Dtype.object, cs⟩ = ⟨Dtype.object, cs⟩ := by
      show (⟨Dtype.object, cs.map formatCell⟩ : Column) = _
      rw [map_eq_self_of (fun x hx => by
        obtain ⟨s, rfl, hstrip, hcap⟩ := hcanon x hx
        show Cell.str (pyCapitalize (pyStrip s)) = Cell.str s
        rw [hstrip, hcap])]
    rw [hfmt]
    exact fillCol_object_of_no_null (fun c hc he => by
      obtain ⟨s, rfl, -, -⟩ := hcanon c hc
      exact Cell.noConfusion he)
  · intro name col hname hd hnum
    rw [cleanColumn_of_generic name hname]
    obtain ⟨d, cs⟩ := col
    cases hd
    rw [formatGate_not_object (by simp)]
    show fillNumericCol Dtype.float64 cs = _
    exact fillNumericCol_of_no_null _ (fun c hc he => by
      obtain ⟨q, rfl⟩ := hnum c hc
      exact Cell.noConfusion he)
  · intro name col hname hbool
    rw [cleanColumn_of_boolean name hname]
    apply boolTail_all_nan
    intro x hx
    by_cases hcap : name = "CapitalOutstanding"
    · rw [hcap] at hx
      have hx' : x ∈ (toNumericCol col).cells := hx
      obtain ⟨a, -, rfl⟩ := List.mem_map.mp hx'
      rcases toNumericCell_not_str a with h1 | ⟨q, h1⟩ <;> rw [h1] <;> rfl
    · rw [show capGate name col = col from if_neg hcap] at hx
      obtain ⟨b, rfl⟩ := hbool x hx
      rfl

/-- Witness for C2's amended theorem on concrete canonical columns. -/
theorem c2_clean_idempotence_scope_witness :
    cleanColumn "Gender" ⟨Dtype.object, [Cell.str "Male"]⟩ =
      ⟨Dtype.object, [Cell.str "Male"]⟩ ∧
    cleanColumn "TotalPremium" ⟨Dtype.float64, [Cell.num 100]⟩ =
      ⟨Dtype.float64, [Cell.num 100]⟩ ∧
    Cell.str "Nan" = Cell.str "Nan" := by
  refine ⟨?_, ?_, ?_⟩
  · refine c2_clean_idempotence_scope.1 "Gender" _ (by decide) rfl ?_
    intro c hc
    have hc' : c = Cell.str "Male" := by simpa using hc
    exact ⟨"Male", hc', by with_unfolding_all rfl, by with_unfolding_all rfl⟩
  · refine c2_clean_idempotence_scope.2.1 "TotalPremium" _ (by decide) rfl ?_
    intro c hc
    have hc' : c = Cell.num 100 := by simpa using hc
    exact ⟨100, hc'⟩
  · refine c2_clean_idempotence_scope.2.2 "TrackingDevice"
      ⟨Dtype.bool, [Cell.bool true]⟩ (by decide) ?_ (Cell.str "Nan")
      (by with_unfolding_all decide)
    intro c hc
    have hc' : c = Cell.bool true := by simpa using hc
    exact ⟨true, hc'⟩

/-- Claim C8: the fill step of `clean_data` replaces each null of a
`float64`/`int64` column having at least one value with the column's median
over its non-null values; end to end, a generic numeric column of the frame
is median-filled by `clean_data`. -/
theorem c8_median_fill :
    (∀ (d : Dtype) (cs : List Cell) (m : ℚ),
      d = Dtype.float64 ∨ d = Dtype.int64 →
      medianQ (numsOf cs) = some m →
      fillCol ⟨d, cs⟩ =
        ⟨d, cs.map (fun c => if c = Cell.null then Cell.num m else c)⟩) ∧
    (∀ (df : DataFrame) (name : String) (col : Column) (m : ℚ),
      name ∉ specialColumns →
      getCol df name = some col →
      col.dtype = Dtype.float64 →
      medianQ (numsOf col.cells) = some m →
      getCol (cleanData df) name =
        some ⟨Dtype.float64,
          col.cells.map (fun c => if c = Cell.null then Cell.num m else c)⟩) := by
  have hfill : ∀ (d : Dtype) (cs : List Cell) (m : ℚ),
      medianQ (numsOf cs) = some m →
      fillNumericCol d cs =
        ⟨d, cs.map (fun c => if c = Cell.null then Cell.num m else c)⟩ := by
    intro d cs m hm
    unfold fillNumericCol
    split
    · rename_i m' hm'
      rw [hm'] at hm
      obtain rfl : m' = m := by injection hm
      rfl
    · rename_i hm'
      rw [hm'] at hm
      exact absurd hm (by simp)
  constructor
  · intro d cs m hd hm
    rcases hd with rfl | rfl
    · show fillNumericCol Dtype.float64 cs = _
      exact hfill _ cs m hm
    · show fillNumericCol Dtype.int64 cs = _
      exact hfill _ cs m hm
  · intro df name col m hname hg hd hm
    rw [getCol_cleanData, hg]
    simp only [Option.map_some', Option.some.injEq]
    rw [cleanColumn_of_generic name hname]
    obtain ⟨d, cs⟩ := col
    cases hd
    rw [formatGate_not_object (by simp)]
    show fillNumericCol Dtype.float64 cs = _
    exact hfill _ cs m hm

/-- Witness for C8: the spec's example column `[1, 2, null, 4]` has its null
filled with the median `2` of `{1, 2, 4}`. -/
theorem c8_median_fill_witness :
    medianQ (numsOf [Cell.num 1, Cell.num 2, Cell.null, Cell.num 4]) = some 2 ∧
    getCol (cleanData exNumDf) "SumInsured" =
      some ⟨Dtype.float64, [Cell.num 1, Cell.num 2, Cell.num 2, Cell.num 4]⟩ := by
  constructor
  · with_unfolding_all rfl
  · have h := c8_median_fill.2 exNumDf "SumInsured"
      ⟨Dtype.float64, [Cell.num 1, Cell.num 2, Cell.null, Cell.num 4]⟩ 2
      (by decide) (by with_unfolding_all rfl) rfl (by with_unfolding_all rfl)
    rw [h]
    with_unfolding_all rfl

/-- The concrete column used to witness the outlier claim. -/
def exOutCells : List Cell :=
  [Cell.num 0, Cell.num 0, Cell.num 0, Cell.num 0, Cell.num 100]

/-- Claim C3: `detect_outliers` reports, for every `float64`/`int64` column,
bounds `Q1 - 1.5*(Q3-Q1)` and `Q3 + 1.5*(Q3-Q1)` where `Q1`/`Q3` are the
25th/75th linear-interpolation percentiles of the column, and every row it
counts as an outlier is a numeric value strictly below the lower bound or
strictly above the upper bound. -/
theorem c3_iqr_bounds :
    (∀ (df : DataFrame) (name : String) (orep : Option OutlierReport),
      (name, orep) ∈ detectOutliers df →
      ∃ col, (name, col) ∈ df ∧
        (col.dtype = Dtype.float64 ∨ col.dtype = Dtype.int64) ∧
        orep = detectOutliersCol col.cells) ∧
    (∀ (cells : List Cell) (r : OutlierReport),
      detectOutliersCol cells = some r →
      quantileQ (numsOf cells) (1 / 4) = some r.q1 ∧
      quantileQ (numsOf cells) (3 / 4) = some r.q3 ∧
      r.lowerBound = r.q1 - 3 / 2 * (r.q3 - r.q1) ∧
      r.upperBound = r.q3 + 3 / 2 * (r.q3 - r.q1) ∧
      r.outlierCount = (outlierRows cells r.lowerBound r.upperBound).length ∧
      ∀ c ∈ outlierRows cells r.lowerBound r.upperBound,
        ∃ q, c = Cell.num q ∧ (q < r.lowerBound ∨ q > r.upperBound)) := by
  constructor
  · intro df name orep hmem
    simp only [detectOutliers, List.mem_map] at hmem
    obtain ⟨p, hp, heq⟩ := hmem
    obtain ⟨hin, hpred⟩ := List.mem_filter.mp hp
    obtain ⟨h1, h2⟩ := Prod.mk.injEq .. ▸ heq
    refine ⟨p.2, ?_, ?_, h2.symm⟩
    · rw [← h1]
      exact hin
    · rcases Bool.or_eq_true _ _ |>.mp hpred with hb | hb
      · exact Or.inl (beq_iff_eq.mp hb)
      · exact Or.inr (beq_iff_eq.mp hb)
  · intro cells r h
    unfold detectOutliersCol at h
    split at h
    · rename_i q1 q3 h1 h3
      obtain rfl : (⟨q1, q3, q3 - q1, q1 - 3 / 2 * (q3 - q1), q3 + 3 / 2 * (q3 - q1),
          (outlierRows cells (q1 - 3 / 2 * (q3 - q1)) (q3 + 3 / 2 * (q3 - q1))).length⟩ :
          OutlierReport) = r := by injection h
      refine ⟨h1, h3, rfl, rfl, rfl, ?_⟩
      intro c hc
      obtain ⟨hcmem, hout⟩ := List.mem_filter.mp hc
      cases c with
      | num q =>
          refine ⟨q, rfl, ?_⟩
          rcases Bool.or_eq_true _ _ |>.mp hout with hb | hb
          · exact Or.inl (of_decide_eq_true hb)
          · exact Or.inr (of_decide_eq_true hb)
      | str s => exact absurd hout (by simp [isOutlierCell])
      | bool b => exact absurd hout (by simp [isOutlierCell])
      | null => exact absurd hout (by simp [isOutlierCell])
    · exact absurd h (by simp)

/-- Witness for C3 on a concrete column whose quartiles coincide, making
`100` the single outlier. -/
theorem c3_iqr_bounds_witness :
    detectOutliersCol exOutCells = some ⟨0, 0, 0, 0, 0, 1⟩ ∧
    (⟨0, 0, 0, 0, 0, 1⟩ : OutlierReport).outlierCount =
      (outlierRows exOutCells 0 0).length ∧
    (⟨0, 0, 0, 0, 0, 1⟩ : OutlierReport).lowerBound = 0 - 3 / 2 * (0 - 0) := by
  have h := c3_iqr_bounds.2 exOutCells ⟨0, 0, 0, 0, 0, 1⟩ (by with_unfolding_all rfl)
  exact ⟨by with_unfolding_all rfl, h.2.2.2.2.1, h.2.2.1⟩

/-- Claim C4: the gender t-test report carries the statistic and p-value the
t-test returned on the male/female `TotalPremium` groups and declares the
null hypothesis rejected exactly when `p < 0.05`; `perform_anova` applies the
same 0.05 threshold to its p-value. -/
theorem c4_pvalue_threshold :
    (∀ (tt : List ℚ → List ℚ → ℚ × ℚ) (df : DataFrame) (r : TestReport),
      testRiskDifferencesBetweenGenders tt df = some r →
      r.statistic = (tt (selectNumsWhere df "Gender" (Cell.str "Male") "TotalPremium")
          (selectNumsWhere df "Gender" (Cell.str "Female") "TotalPremium")).1 ∧
      r.pValue = (tt (selectNumsWhere df "Gender" (Cell.str "Male") "TotalPremium")
          (selectNumsWhere df "Gender" (Cell.str "Female") "TotalPremium")).2 ∧
      (r.rejectNull = true ↔ r.pValue < 1 / 20)) ∧
    (∀ (anova : List (List Cell) → ℚ × ℚ) (groups : List (List Cell)),
      (performAnova anova groups).rejectNull = true ↔
        (performAnova anova groups).pValue < 1 / 20) := by
  constructor
  · intro tt df r h
    unfold testRiskDifferencesBetweenGenders at h
    split at h
    · obtain rfl :
          (⟨(tt (selectNumsWhere df "Gender" (Cell.str "Male") "TotalPremium")
              (selectNumsWhere df "Gender" (Cell.str "Female") "TotalPremium")).1,
            (tt (selectNumsWhere df "Gender" (Cell.str "Male") "TotalPremium")
              (selectNumsWhere df "Gender" (Cell.str "Female") "TotalPremium")).2,
            decide ((tt (selectNumsWhere df "Gender" (Cell.str "Male") "TotalPremium")
              (selectNumsWhere df "Gender" (Cell.str "Female") "TotalPremium")).2 < 1 / 20)⟩ :
            TestReport) = r := by injection h
      exact ⟨rfl, rfl, by simp⟩
    · exact absurd h (by simp)
  · intro anova groups
    show decide ((anova groups).2 < 1 / 20) = true ↔ _
    simp [performAnova]

/-- Witness for C4 with a concrete t-test returning p = 0.01 on `exRawDf`. -/
theorem c4_pvalue_threshold_witness :
    testRiskDifferencesBetweenGenders exTT exRawDf =
      some ⟨3, 1 / 100, true⟩ ∧
    ((⟨3, 1 / 100, true⟩ : TestReport).rejectNull = true ↔ (1 : ℚ) / 100 < 1 / 20) := by
  refine ⟨by with_unfolding_all rfl, ?_⟩
  exact (c4_pvalue_threshold.1 exTT exRawDf ⟨3, 1 / 100, true⟩
    (by with_unfolding_all rfl)).2.2

/-- Claim C5: `conduct_statistical_tests` dispatches on the KPI column's
dtype alone — a Welch t-test when `is_numeric_dtype` holds, a chi-squared
test otherwise — and `analyze_statistical_outcomes` dispatches per column the
same way; the choice is a function of the dtype, so identical input always
picks the same test. -/
theorem c5_dispatch_by_dtype :
    (∀ (df : DataFrame) (f k : String) (cv tv : Cell) (fc kc : Column),
      getCol df f = some fc → getCol df k = some kc →
      conductStatisticalTests df f k cv tv =
        .ok ((fc.cells.filter (fun c => c == cv)).length,
          (fc.cells.filter (fun c => c == tv)).length,
          if isNumericDtype kc.dtype then TestKind.tTest else TestKind.chiSquared)) ∧
    (∀ (df : DataFrame) (name : String) (c : Column),
      getCol df name = some c →
      analyzeColumnDispatch df name =
        some (if isNumericDtype c.dtype then TestKind.tTest else TestKind.chiSquared)) := by
  constructor
  · intro df f k cv tv fc kc hf hk
    unfold conductStatisticalTests
    rw [hf, hk]
  · intro df name c h
    unfold analyzeColumnDispatch
    rw [h]

/-- Witness for C5: on `exRawDf` the numeric KPI `TotalPremium` gets the
t-test, while the categorical `Gender` column gets the chi-squared test. -/
theorem c5_dispatch_by_dtype_witness :
    conductStatisticalTests exRawDf "Gender" "TotalPremium"
      (Cell.str "Male") (Cell.str "Female") = .ok (1, 1, TestKind.tTest) ∧
    analyzeColumnDispatch exRawDf "Gender" = some TestKind.chiSquared := by
  constructor
  · have h := c5_dispatch_by_dtype.1 exRawDf "Gender" "TotalPremium"
      (Cell.str "Male") (Cell.str "Female")
      ⟨Dtype.object, [Cell.str "Male", Cell.str "Female"]⟩
      ⟨Dtype.float64, [Cell.num 100, Cell.num 200]⟩
      (by with_unfolding_all rfl) (by with_unfolding_all rfl)
    rw [h]
    with_unfolding_all rfl
  · have h := c5_dispatch_by_dtype.2 exRawDf "Gender"
      ⟨Dtype.object, [Cell.str "Male", Cell.str "Female"]⟩
      (by with_unfolding_all rfl)
    rw [h]
    rfl

/-- Claim C6: when the input file is missing, the converter's load returns
`None` (after printing) and `convert_and_save` writes nothing; likewise the
cleaner's `process` writes no output because every step guards on
`self.data is not None`.  The filesystem is unchanged. -/
theorem c6_missing_input_no_output (fs : FS) (inputFile outputFile : String)
    (h : fsLookup fs inputFile = none) :
    converterProcess fs inputFile outputFile = fs ∧
    cleanerProcess fs inputFile outputFile = fs := by
  constructor
  · unfold converterProcess converterLoadData
    rw [h]
    rfl
  · unfold cleanerProcess
    rw [h]

/-- Witness for C6 on the empty filesystem. -/
theorem c6_missing_input_no_output_witness :
    converterProcess [] "ml.txt" "ml.csv" = [] ∧
    cleanerProcess [] "ml.csv" "cleaned_ml.csv" = [] :=
  ⟨(c6_missing_input_no_output [] "ml.txt" "ml.csv" rfl).1,
   (c6_missing_input_no_output [] "ml.csv" "cleaned_ml.csv" rfl).2⟩

/-- Claim C7, as stated, is false: with the `Risk`/`ProfitMargin` columns
absent, `HypothesisTesting.perform_hypothesis_testing` raises a `ValueError`
instead of skipping with a printed message. -/
theorem c7_counterexample :
    performHypothesisTesting exAnova exTTCells exDfNoRisk =
      .error ("The dataset must include the following columns: " ++
        "Province, PostalCode, Gender, Risk, ProfitMargin") := by
  with_unfolding_all rfl

/-- Claim C7 (amended): on a missing required column the
`ABHypothesisTesting` tests skip with a printed message (modeled `none`),
but `perform_hypothesis_testing` and `conduct_statistical_tests` raise a
`ValueError` instead. -/
theorem c7_missing_column_behavior :
    (∀ (anova : List (List Cell) → ℚ × ℚ) (df : DataFrame),
      (hasCol df "Province" && hasCol df "TotalPremium" &&
        hasCol df "TotalClaims") = false →
      testRiskDifferencesAcrossProvinces anova df = none) ∧
    (∀ (anova : List (List Cell) → ℚ × ℚ) (tt : List Cell → List Cell → ℚ × ℚ)
        (df : DataFrame),
      requiredColumnsHT.all (fun c => hasCol df c) = false →
      performHypothesisTesting anova tt df =
        .error ("The dataset must include the following columns: " ++
          "Province, PostalCode, Gender, Risk, ProfitMargin")) ∧
    (∀ (df : DataFrame) (f k : String) (cv tv : Cell),
      getCol df f = none ∨ getCol df k = none →
      ∃ e, conductStatisticalTests df f k cv tv = Except.error e) := by
  refine ⟨?_, ?_, ?_⟩
  · intro anova df h
    simp [testRiskDifferencesAcrossProvinces, h]
  · intro anova tt df h
    simp [performHypothesisTesting, h]
  · intro df f k cv tv h
    unfold conductStatisticalTests
    cases hf : getCol df f with
    | none => exact ⟨_, rfl⟩
    | some fc =>
        cases hk : getCol df k with
        | none => exact ⟨_, rfl⟩
        | some kc =>
            rcases h with h | h
            · rw [hf] at h
              exact absurd h (by simp)
            · rw [hk] at h
              exact absurd h (by simp)

/-- Witness for C7's amended theorem on concrete frames. -/
theorem c7_missing_column_behavior_witness :
    testRiskDifferencesAcrossProvinces exAnova exNumDf = none ∧
    performHypothesisTesting exAnova exTTCells exNumDf =
      .error ("The dataset must include the following columns: " ++
        "Province, PostalCode, Gender, Risk, ProfitMargin") ∧
    ∃ e, conductStatisticalTests exNumDf "Gender" "TotalPremium"
      Cell.null Cell.null = Except.error e := by
  refine ⟨?_, ?_, ?_⟩
  · exact c7_missing_column_behavior.1 exAnova exNumDf (by with_unfolding_all rfl)
  · exact c7_missing_column_behavior.2.1 exAnova exTTCells exNumDf
      (by with_unfolding_all rfl)
  · exact c7_missing_column_behavior.2.2 exNumDf "Gender" "TotalPremium"
      Cell.null Cell.null (Or.inl (by with_unfolding_all rfl))
